/-
Verification of the nodecast-tv channel-list component and persistence layer.

Shallow embedding of:
  * `public/js/components/ChannelList.js` (merge/dedup, render grouping and
    sorting, windowed batch rendering, hidden filtering, favorite toggling,
    channel selection), and
  * `server/db.js` (`sources.delete`).

JavaScript strings are modelled as Lean `String`; `Set` objects as `Finset
String`; `localeCompare`-based ordering as the `String` linear order;
`String.prototype.includes` as list-infix search on the character list.
-/
import Mathlib

set_option maxHeartbeats 1000000

namespace NodecastTV

/-! ### Data model: canonical channel record (ChannelList entity shape) -/

/-- Canonical channel record as built by `loadXtreamChannels` /
`loadM3uChannels` in `ChannelList`. -/
structure Channel where
  id : String
  streamId : Option Nat
  name : String
  tvgId : Option String
  tvgLogo : Option String
  groupId : String
  groupTitle : String
  sourceId : Nat
  sourceType : String
  url : Option String
deriving DecidableEq, Repr

/-- Composite favorite key, JS `` `${sourceId}:${channelId}` ``. -/
def favKey (sourceId : Nat) (channelId : String) : String :=
  toString sourceId ++ ":" ++ channelId

/-- Composite hidden-item key, JS `` `${type}:${sourceId}:${itemId}` ``. -/
def hiddenKey (itemType : String) (sourceId : Nat) (itemId : String) : String :=
  itemType ++ ":" ++ toString sourceId ++ ":" ++ itemId

/-- `ChannelList.isHidden`: membership test in the cached hidden-item set. -/
def isHiddenIn (hiddenItems : Finset String) (itemType : String)
    (sourceId : Nat) (itemId : String) : Bool :=
  decide (hiddenKey itemType sourceId itemId ∈ hiddenItems)

/-- `ChannelList.isFavorite`: membership test in the cached favorite set. -/
def isFavoriteIn (visibleFavorites : Finset String)
    (sourceId : Nat) (channelId : String) : Bool :=
  decide (favKey sourceId channelId ∈ visibleFavorites)

/-! ### Entity merge layer: Xtream load and first-seen dedup -/

/-- Raw Xtream category record (`liveCategories` response). -/
structure XtreamCategory where
  category_id : Nat
  category_name : String
deriving DecidableEq, Repr

/-- Raw Xtream stream record (`liveStreams` response). -/
structure XtreamStream where
  stream_id : Nat
  name : String
  epg_channel_id : Option String
  stream_icon : Option String
  category_id : Nat
deriving DecidableEq, Repr

/-- Stream-to-channel mapping inside `loadXtreamChannels`: the group title is
the joined category name, falling back to `"Uncategorized"` when the category
is unresolved or its name is empty (JS `... || 'Uncategorized'`). -/
def xtreamChannel (sourceId : Nat) (categories : List XtreamCategory)
    (s : XtreamStream) : Channel :=
  let title :=
    match categories.find? (fun c => c.category_id == s.category_id) with
    | some c => if c.category_name.isEmpty then "Uncategorized" else c.category_name
    | none => "Uncategorized"
  { id := "xtream_" ++ toString sourceId ++ "_" ++ toString s.stream_id
    streamId := some s.stream_id
    name := s.name
    tvgId := s.epg_channel_id
    tvgLogo := s.stream_icon
    groupId := "xtream_" ++ toString sourceId ++ "_" ++ toString s.category_id
    groupTitle := title
    sourceId := sourceId
    sourceType := "xtream"
    url := none }

/-- Dedup key used by `loadXtreamChannels`, JS `` `${ch.groupTitle}|${ch.name}` ``. -/
def dedupKey (c : Channel) : String :=
  c.groupTitle ++ "|" ++ c.name

/-- The dedup loop of `loadXtreamChannels`: a `seen` set of key strings,
keeping the first channel carrying each key. -/
def dedupeLoop (seen : Finset String) : List Channel → List Channel
  | [] => []
  | c :: cs =>
    if dedupKey c ∈ seen then dedupeLoop seen cs
    else c :: dedupeLoop (insert (dedupKey c) seen) cs

/-- `uniqueChannels` computed by `loadXtreamChannels` from the mapped list. -/
def dedupeChannels (l : List Channel) : List Channel :=
  dedupeLoop ∅ l

/-- `ChannelList.loadXtreamChannels` (append mode): maps streams to channels,
dedups them by key, and pushes onto the existing collection. -/
def loadXtreamChannels (sourceId : Nat) (categories : List XtreamCategory)
    (streams : List XtreamStream) (channels : List Channel) : List Channel :=
  channels ++ dedupeChannels (streams.map (xtreamChannel sourceId categories))

/-! ### Persistence layer: `server/db.js` -/

/-- A stored source record (`db.sources` entry). -/
structure DbSource where
  id : Nat
  name : String
  type : String
  enabled : Bool
deriving DecidableEq, Repr

/-- A stored hidden-item record (`db.hiddenItems` entry). -/
structure HiddenRecord where
  id : Nat
  source_id : Nat
  item_type : String
  item_id : String
deriving DecidableEq, Repr

/-- A stored favorite record (`db.favorites` entry). -/
structure FavoriteRecord where
  id : Nat
  source_id : Nat
  item_id : String
  item_type : String
  created_at : String
deriving DecidableEq, Repr

/-- The whole JSON store (`loadDb` shape). -/
structure Db where
  sources : List DbSource
  hiddenItems : List HiddenRecord
  favorites : List FavoriteRecord
  nextId : Nat
deriving DecidableEq, Repr

/-- `sources.delete(id)`: drop the source record and the hidden items of that
source; `db.favorites` is not touched. -/
def sourcesDelete (db : Db) (id : Nat) : Db :=
  { db with
    sources := db.sources.filter (fun s => s.id != id)
    hiddenItems := db.hiddenItems.filter (fun h => h.source_id != id) }

/-! ### Dedup lemmas -/

theorem dedupeLoop_filter (k : String) :
    ∀ (l : List Channel) (seen : Finset String),
      (dedupeLoop seen l).filter (fun c => dedupKey c == k) =
        if k ∈ seen then [] else (l.filter (fun c => dedupKey c == k)).take 1 := by
  intro l
  induction l with
  | nil => intro seen; simp [dedupeLoop]
  | cons c cs ih =>
    intro seen
    by_cases hc : dedupKey c ∈ seen
    · rw [dedupeLoop, if_pos hc, ih seen]
      by_cases hk : k ∈ seen
      · simp [hk]
      · have hb : (dedupKey c == k) = false := by
          refine beq_eq_false_iff_ne.mpr ?_
          intro e; exact hk (e ▸ hc)
        simp [hk, List.filter_cons, hb]
    · rw [dedupeLoop, if_neg hc]
      by_cases he : dedupKey c = k
      · subst he
        simp [List.filter_cons, ih, hc]
      · have hb : (dedupKey c == k) = false := beq_eq_false_iff_ne.mpr he
        rw [List.filter_cons]
        simp only [hb, Bool.false_eq_true, if_false]
        rw [ih (insert (dedupKey c) seen)]
        by_cases hk : k ∈ seen
        · simp [hk]
        · have hki : k ∉ insert (dedupKey c) seen := by
            rw [Finset.mem_insert]
            rintro (e | e)
            · exact he e.symm
            · exact hk e
          simp [hki, hk, List.filter_cons, hb]

theorem dedupeLoop_sublist : ∀ (l : List Channel) (seen : Finset String),
    (dedupeLoop seen l).Sublist l := by
  intro l
  induction l with
  | nil => intro seen; simp [dedupeLoop]
  | cons c cs ih =>
    intro seen
    rw [dedupeLoop]
    by_cases hc : dedupKey c ∈ seen
    · rw [if_pos hc]
      exact (ih seen).cons c
    · rw [if_neg hc]
      exact (ih (insert (dedupKey c) seen)).cons₂ c

/-! ### Claim C1 -/

/-- Witness channels for the C1 counterexample: two items with distinct
`(groupTitle, name)` pairs whose concatenated dedup keys coincide. -/
def pipeChannelA : Channel :=
  { id := "xtream_1_1", streamId := some 1, name := "c", tvgId := none,
    tvgLogo := none, groupId := "xtream_1_7", groupTitle := "a|b",
    sourceId := 1, sourceType := "xtream", url := none }

def pipeChannelB : Channel :=
  { id := "xtream_1_2", streamId := some 2, name := "b|c", tvgId := none,
    tvgLogo := none, groupId := "xtream_1_8", groupTitle := "a",
    sourceId := 1, sourceType := "xtream", url := none }

/-- Claim C1, counterexample: the dedup key is the string
`groupTitle ++ "|" ++ name`, so the two channels above — whose
`(groupTitle, name)` pairs differ — collide, and the second one is discarded
even though its pair is distinct. -/
theorem dedup_distinct_pair_dropped :
    dedupeChannels [pipeChannelA, pipeChannelB] = [pipeChannelA] ∧
      (pipeChannelB.groupTitle, pipeChannelB.name) ≠
        (pipeChannelA.groupTitle, pipeChannelA.name) := by
  constructor
  · decide
  · decide

/-- Claim C1 (amended): within one aggregator source load, items sharing the
same dedup key string `groupTitle ++ "|" ++ name` collapse to exactly one
entity — the first encountered in fetch order — and every item with a distinct
key string is kept, in fetch order (the dedup result is a sublist of the
input). Distinct `(groupTitle, name)` pairs can share a key when a title or
name contains `"|"`. -/
theorem dedup_first_seen_wins (l : List Channel) (k : String) :
    (dedupeChannels l).filter (fun c => dedupKey c == k) =
        (l.filter (fun c => dedupKey c == k)).take 1 ∧
      (dedupeChannels l).Sublist l := by
  refine ⟨?_, dedupeLoop_sublist l ∅⟩
  rw [dedupeChannels, dedupeLoop_filter k l ∅]
  simp

/-! ### Filter/Group/Sort engine: `ChannelList.render` -/

/-- JS `String.prototype.toLowerCase`, modelled per character. -/
def jsToLower (s : String) : String :=
  ⟨s.data.map Char.toLower⟩

/-- JS `String.prototype.includes`, on character lists. -/
def charsContain : List Char → List Char → Bool
  | [], needle => needle.isEmpty
  | c :: t, needle => needle.isPrefixOf (c :: t) || charsContain t needle

/-- JS `haystack.includes(needle)`. -/
def strIncludes (haystack needle : String) : Bool :=
  charsContain haystack.toList needle.toList

/-- The per-channel search predicate of `render` step 1 (the group title is
tested only when truthy, i.e. non-empty). -/
def matchesSearch (searchTerm : String) (c : Channel) : Bool :=
  strIncludes (jsToLower c.name) searchTerm ||
    (!c.groupTitle.isEmpty && strIncludes (jsToLower c.groupTitle) searchTerm)

/-- `this.filteredChannels` after `render` step 1: the empty search term
(falsy) leaves the collection unfiltered. -/
def searchFiltered (channels : List Channel) (searchRaw : String) : List Channel :=
  let searchTerm := jsToLower searchRaw
  if searchTerm.isEmpty then channels
  else channels.filter (matchesSearch searchTerm)

/-- The partition key of `render` step 2, JS `ch.groupTitle || 'Uncategorized'`. -/
def groupKeyOf (c : Channel) : String :=
  if c.groupTitle.isEmpty then "Uncategorized" else c.groupTitle

/-- One step of `render` step 2: append a channel to its group entry of the
insertion-ordered group map (JS object keyed by group title). -/
def addToGroups (m : List (String × List Channel)) (key : String) (c : Channel) :
    List (String × List Channel) :=
  match m with
  | [] => [(key, [c])]
  | e :: rest =>
    if e.1 == key then (e.1, e.2 ++ [c]) :: rest
    else e :: addToGroups rest key c

/-- `render` step 2: partition the filtered channels by group title, keys in
first-appearance order, members in filtered order. -/
def groupChannels (l : List Channel) : List (String × List Channel) :=
  l.foldl (fun m c => addToGroups m (groupKeyOf c) c) []

/-- JS object assignment `groupedChannels['Favorites'] = ...`: replace the
entry in place when the key exists, otherwise append it. -/
def setGroup (m : List (String × List Channel)) (key : String)
    (v : List Channel) : List (String × List Channel) :=
  match m with
  | [] => [(key, v)]
  | e :: rest => if e.1 == key then (e.1, v) :: rest else e :: setGroup rest key v

/-- Member comparator of the Favorites sort,
JS `(a, b) => a.name.localeCompare(b.name)`, `localeCompare` modelled by the
string order. -/
def nameCmpLE (a b : Channel) : Prop := a.name ≤ b.name

instance : DecidableRel nameCmpLE := fun a b => by
  unfold nameCmpLE; infer_instance

/-- Group comparator of `render` step 4: `Favorites` is forced first, the rest
compare by `localeCompare`, modelled by the string order. -/
def groupCmpLE (a b : String) : Prop :=
  if a = "Favorites" then True
  else if b = "Favorites" then False
  else a ≤ b

instance : DecidableRel groupCmpLE := fun a b => by
  unfold groupCmpLE; infer_instance

/-- `this.channels.filter(ch => this.isFavorite(ch.sourceId, ch.id))` of
`render` step 3 — drawn from the unfiltered collection. -/
def favoritedChannels (channels : List Channel) (favs : Finset String) :
    List Channel :=
  channels.filter (fun c => isFavoriteIn favs c.sourceId c.id)

/-- `this.groupedChannels` after `render` steps 1-3.  JS `Array.sort` is a
stable sort; it is modelled by (stable) insertion sort. -/
def groupedChannels (channels : List Channel) (favs : Finset String)
    (searchRaw : String) : List (String × List Channel) :=
  let grouped := groupChannels (searchFiltered channels searchRaw)
  let favCh := favoritedChannels channels favs
  if favCh.isEmpty then grouped
  else setGroup grouped "Favorites" (List.insertionSort nameCmpLE favCh)

/-- `this.sortedGroups` after `render` step 4. -/
def sortedGroupTitles (channels : List Channel) (favs : Finset String)
    (searchRaw : String) : List String :=
  List.insertionSort groupCmpLE
    ((groupedChannels channels favs searchRaw).map Prod.fst)

/-! ### Windowed renderer: `ChannelList.renderNextBatch` -/

/-- What one group contributes to the output: the header title, the count
shown in the header (`channels.length`), and the member rows actually
emitted. -/
structure RenderedGroup where
  title : String
  count : Nat
  rows : List Channel
deriving DecidableEq, Repr

/-- The body of the `renderNextBatch` group loop for one group: skipped when
the member list is empty, or when the group is hidden (checked against the
first member's source) and show-hidden is off; the Favorites group bypasses
both hidden checks; individually hidden members are skipped under the same
rule; the header count is `channels.length`. -/
def renderGroupCore (hiddenItems : Finset String) (showHidden : Bool)
    (groupName : String) (channels : List Channel) : Option RenderedGroup :=
  match channels with
  | [] => none
  | c0 :: _ =>
    let isFavoritesGroup := groupName == "Favorites"
    let groupHidden :=
      !isFavoritesGroup && isHiddenIn hiddenItems "group" c0.sourceId groupName
    if groupHidden && !showHidden then none
    else some
      { title := groupName
        count := channels.length
        rows := channels.filter (fun ch =>
          !((!isFavoritesGroup &&
              isHiddenIn hiddenItems "channel" ch.sourceId ch.id) &&
            !showHidden)) }

/-- `this.groupedChannels[groupName]` lookup. -/
def lookupGroup (m : List (String × List Channel)) (key : String) :
    Option (List Channel) :=
  (m.find? (fun e => e.1 == key)).map Prod.snd

/-- One group of a batch: look the title up in the grouped map and render it. -/
def renderGroupByName (m : List (String × List Channel))
    (hiddenItems : Finset String) (showHidden : Bool) (groupName : String) :
    Option RenderedGroup :=
  match lookupGroup m groupName with
  | none => none
  | some channels => renderGroupCore hiddenItems showHidden groupName channels

/-- `this.batchSize` (groups per `renderNextBatch` call). -/
def batchSize : Nat := 100

/-- One `renderNextBatch` call with `currentBatch = i`: slice the next
`batchSize` titles and render each group. -/
def renderBatch (m : List (String × List Channel)) (hiddenItems : Finset String)
    (showHidden : Bool) (sorted : List String) (i : Nat) : List RenderedGroup :=
  ((sorted.drop (i * batchSize)).take batchSize).filterMap
    (renderGroupByName m hiddenItems showHidden)

/-- The output accumulated after firing `renderNextBatch` `n` times from a
fresh `render` (initial eager batches plus visibility-sentinel callbacks). -/
def renderBatches (m : List (String × List Channel))
    (hiddenItems : Finset String) (showHidden : Bool) (sorted : List String)
    (n : Nat) : List RenderedGroup :=
  (List.range n).flatMap (renderBatch m hiddenItems showHidden sorted)

/-- Everything the windowed renderer can ever emit for one rebuild. -/
def fullRender (m : List (String × List Channel)) (hiddenItems : Finset String)
    (showHidden : Bool) (sorted : List String) : List RenderedGroup :=
  sorted.filterMap (renderGroupByName m hiddenItems showHidden)

/-- All member rows emitted, in emission order. -/
def renderedRows (out : List RenderedGroup) : List Channel :=
  (out.map RenderedGroup.rows).flatten

/-- `ChannelList.getVisibleChannels`: the per-entity visibility rule (each
entity checked against its own source and group title). -/
def getVisibleChannels (channels : List Channel) (hiddenItems : Finset String)
    (showHidden : Bool) : List Channel :=
  channels.filter (fun ch =>
    if showHidden then true
    else
      !(isHiddenIn hiddenItems "channel" ch.sourceId ch.id) &&
        !(isHiddenIn hiddenItems "group" ch.sourceId ch.groupTitle))

/-! ### Grouping lemmas -/

theorem lookupGroup_cons (e : String × List Channel)
    (rest : List (String × List Channel)) (k : String) :
    lookupGroup (e :: rest) k =
      if e.1 = k then some e.2 else lookupGroup rest k := by
  by_cases h : e.1 = k
  · simp [lookupGroup, List.find?_cons, h]
  · simp [lookupGroup, List.find?_cons, h]

theorem lookupGroup_addToGroups (m : List (String × List Channel))
    (key : String) (c : Channel) (k : String) :
    lookupGroup (addToGroups m key c) k =
      if k = key then some (((lookupGroup m key).getD []) ++ [c])
      else lookupGroup m k := by
  induction m with
  | nil =>
    by_cases h : k = key
    · simp [addToGroups, lookupGroup_cons, lookupGroup, h]
    · simp [addToGroups, lookupGroup_cons, lookupGroup, h, Ne.symm h]
  | cons e rest ih =>
    rw [addToGroups]
    by_cases he : e.1 = key
    · simp only [he, beq_self_eq_true, if_true, lookupGroup_cons]
      by_cases hk : k = key
      · simp [he, hk]
      · have hek : ¬ e.1 = k := by rw [he]; exact fun e2 => hk e2.symm
        have hk2 : ¬ key = k := fun e2 => hk e2.symm
        simp [hek, hk, hk2]
    · have hb : (e.1 == key) = false := beq_eq_false_iff_ne.mpr he
      simp only [hb, Bool.false_eq_true, if_false, lookupGroup_cons, ih]
      by_cases hek : e.1 = k
      · have hk : ¬ k = key := fun e2 => he (hek.trans e2)
        simp [hek, hk, he]
      · simp [hek, he]

theorem lookupGroup_foldl (l : List Channel) :
    ∀ (m : List (String × List Channel)) (k : String),
      lookupGroup (l.foldl (fun m c => addToGroups m (groupKeyOf c) c) m) k =
        match lookupGroup m k with
        | some cs => some (cs ++ l.filter (fun c => groupKeyOf c == k))
        | none =>
          if (l.filter (fun c => groupKeyOf c == k)).isEmpty then none
          else some (l.filter (fun c => groupKeyOf c == k)) := by
  induction l with
  | nil =>
    intro m k
    cases h : lookupGroup m k <;> simp [h]
  | cons c cs ih =>
    intro m k
    rw [List.foldl_cons, ih (addToGroups m (groupKeyOf c) c) k,
      lookupGroup_addToGroups]
    by_cases hk : k = groupKeyOf c
    · have hp : (groupKeyOf c == k) = true := beq_iff_eq.mpr hk.symm
      rw [if_pos hk, List.filter_cons, hp]
      cases h : lookupGroup m k <;> simp [hk ▸ h, List.append_assoc]
    · have hp : (groupKeyOf c == k) = false :=
        beq_eq_false_iff_ne.mpr (fun e => hk e.symm)
      rw [if_neg hk, List.filter_cons, hp]
      simp only [Bool.false_eq_true, if_false]

theorem lookupGroup_groupChannels (l : List Channel) (k : String) :
    lookupGroup (groupChannels l) k =
      if (l.filter (fun c => groupKeyOf c == k)).isEmpty then none
      else some (l.filter (fun c => groupKeyOf c == k)) := by
  rw [groupChannels, lookupGroup_foldl l [] k]
  rfl

theorem lookupGroup_setGroup (m : List (String × List Channel)) (key : String)
    (v : List Channel) (k : String) :
    lookupGroup (setGroup m key v) k =
      if k = key then some v else lookupGroup m k := by
  induction m with
  | nil =>
    by_cases h : k = key
    · simp [setGroup, lookupGroup_cons, lookupGroup, h]
    · simp [setGroup, lookupGroup_cons, lookupGroup, h, Ne.symm h]
  | cons e rest ih =>
    rw [setGroup]
    by_cases he : e.1 = key
    · simp only [he, beq_self_eq_true, if_true, lookupGroup_cons]
      by_cases hk : k = key
      · simp [he, hk]
      · have hek : ¬ e.1 = k := by rw [he]; exact fun e2 => hk e2.symm
        have hk2 : ¬ key = k := fun e2 => hk e2.symm
        simp [hek, hk, hk2]
    · have hb : (e.1 == key) = false := beq_eq_false_iff_ne.mpr he
      simp only [hb, Bool.false_eq_true, if_false, lookupGroup_cons, ih]
      by_cases hek : e.1 = k
      · have hk : ¬ k = key := fun e2 => he (hek.trans e2)
        simp [hek, hk, he]
      · simp [hek, he]

theorem keys_addToGroups (m : List (String × List Channel)) (key : String)
    (c : Channel) :
    (addToGroups m key c).map Prod.fst =
      if key ∈ m.map Prod.fst then m.map Prod.fst
      else m.map Prod.fst ++ [key] := by
  induction m with
  | nil => simp [addToGroups]
  | cons e rest ih =>
    rw [addToGroups]
    by_cases he : e.1 = key
    · simp [he]
    · have hb : (e.1 == key) = false := beq_eq_false_iff_ne.mpr he
      simp only [hb, Bool.false_eq_true, if_false, List.map_cons, ih]
      by_cases hmem : key ∈ rest.map Prod.fst
      · simp [hmem, Ne.symm he]
      · simp [hmem, Ne.symm he]

theorem keys_setGroup (m : List (String × List Channel)) (key : String)
    (v : List Channel) :
    (setGroup m key v).map Prod.fst =
      if key ∈ m.map Prod.fst then m.map Prod.fst
      else m.map Prod.fst ++ [key] := by
  induction m with
  | nil => simp [setGroup]
  | cons e rest ih =>
    rw [setGroup]
    by_cases he : e.1 = key
    · simp [he]
    · have hb : (e.1 == key) = false := beq_eq_false_iff_ne.mpr he
      simp only [hb, Bool.false_eq_true, if_false, List.map_cons, ih]
      by_cases hmem : key ∈ rest.map Prod.fst
      · simp [hmem, Ne.symm he]
      · simp [hmem, Ne.symm he]

theorem keys_foldl_nodup (l : List Channel) :
    ∀ m : List (String × List Channel), (m.map Prod.fst).Nodup →
      ((l.foldl (fun m c => addToGroups m (groupKeyOf c) c) m).map
        Prod.fst).Nodup := by
  induction l with
  | nil => intro m hm; exact hm
  | cons c cs ih =>
    intro m hm
    rw [List.foldl_cons]
    refine ih _ ?_
    rw [keys_addToGroups]
    by_cases hmem : groupKeyOf c ∈ m.map Prod.fst
    · simpa [hmem] using hm
    · rw [if_neg hmem]
      rw [List.nodup_append]
      exact ⟨hm, List.nodup_singleton _, by
        intro a ha hb
        rw [List.mem_singleton] at hb
        exact hmem (hb ▸ ha)⟩

theorem keys_groupChannels_nodup (l : List Channel) :
    ((groupChannels l).map Prod.fst).Nodup :=
  keys_foldl_nodup l [] (by simp)

theorem keys_groupedChannels_nodup (channels : List Channel)
    (favs : Finset String) (searchRaw : String) :
    ((groupedChannels channels favs searchRaw).map Prod.fst).Nodup := by
  rw [groupedChannels]
  by_cases hE : (favoritedChannels channels favs).isEmpty
  · simpa [hE] using keys_groupChannels_nodup (searchFiltered channels searchRaw)
  · simp only [hE, Bool.false_eq_true, if_false, keys_setGroup]
    by_cases hmem :
        "Favorites" ∈ (groupChannels (searchFiltered channels searchRaw)).map
          Prod.fst
    · simpa [hmem] using keys_groupChannels_nodup (searchFiltered channels searchRaw)
    · rw [if_neg hmem, List.nodup_append]
      exact ⟨keys_groupChannels_nodup _, List.nodup_singleton _, by
        intro a ha hb
        rw [List.mem_singleton] at hb
        exact hmem (hb ▸ ha)⟩

/-! ### The group comparator is a total preorder -/

theorem groupCmpLE_total (a b : String) : groupCmpLE a b ∨ groupCmpLE b a := by
  unfold groupCmpLE
  by_cases ha : a = "Favorites"
  · simp [ha]
  · by_cases hb : b = "Favorites"
    · simp [ha, hb]
    · simp only [ha, hb, if_false]
      exact le_total a b

theorem groupCmpLE_trans (a b c : String) :
    groupCmpLE a b → groupCmpLE b c → groupCmpLE a c := by
  unfold groupCmpLE
  by_cases ha : a = "Favorites"
  · simp [ha]
  · by_cases hb : b = "Favorites"
    · simp [ha, hb]
    · by_cases hc : c = "Favorites"
      · simp [ha, hb, hc]
      · simp only [ha, hb, hc, if_false]
        exact le_trans

instance : IsTotal String groupCmpLE := ⟨groupCmpLE_total⟩

instance : IsTrans String groupCmpLE := ⟨groupCmpLE_trans⟩

instance : IsTotal Channel nameCmpLE := ⟨fun a b => le_total a.name b.name⟩

instance : IsTrans Channel nameCmpLE :=
  ⟨fun _ _ _ hab hbc => le_trans hab hbc⟩

theorem sortedGroupTitles_sorted (channels : List Channel)
    (favs : Finset String) (searchRaw : String) :
    List.Sorted groupCmpLE (sortedGroupTitles channels favs searchRaw) :=
  List.sorted_insertionSort groupCmpLE _

theorem sortedGroupTitles_perm (channels : List Channel) (favs : Finset String)
    (searchRaw : String) :
    (sortedGroupTitles channels favs searchRaw).Perm
      ((groupedChannels channels favs searchRaw).map Prod.fst) :=
  List.perm_insertionSort groupCmpLE _

theorem sortedGroupTitles_nodup (channels : List Channel)
    (favs : Finset String) (searchRaw : String) :
    (sortedGroupTitles channels favs searchRaw).Nodup :=
  (sortedGroupTitles_perm channels favs searchRaw).nodup_iff.mpr
    (keys_groupedChannels_nodup channels favs searchRaw)

theorem sorted_favorites_head (sg : List String)
    (hs : List.Sorted groupCmpLE sg) (hmem : "Favorites" ∈ sg) :
    sg.head? = some "Favorites" := by
  cases sg with
  | nil => cases hmem
  | cons a t =>
    by_cases ha : a = "Favorites"
    · simp [ha]
    · rcases List.mem_cons.mp hmem with h | h
      · exact absurd h.symm ha
      · have := (List.sorted_cons.mp hs).1 "Favorites" h
        unfold groupCmpLE at this
        simp [ha] at this

/-! ### Claim C2 -/

/-- A channel sitting in a fetched group literally titled `Favorites`
(named `"b"`, listed first). -/
def favTitledB : Channel :=
  { id := "m3u_1_b", streamId := none, name := "b", tvgId := none,
    tvgLogo := none, groupId := "m3u_1_group_0", groupTitle := "Favorites",
    sourceId := 1, sourceType := "m3u", url := some "http://e/b" }

/-- A channel sitting in a fetched group literally titled `Favorites`
(named `"a"`, listed second). -/
def favTitledA : Channel :=
  { id := "m3u_1_a", streamId := none, name := "a", tvgId := none,
    tvgLogo := none, groupId := "m3u_1_group_0", groupTitle := "Favorites",
    sourceId := 1, sourceType := "m3u", url := some "http://e/a" }

/-- Claim C2, counterexample: with no entity flagged favorite, a fetched group
literally titled `Favorites` reaches the renderer with its members in source
order — here `"b"` before `"a"` — so the members of the rendered `Favorites`
group are not sorted by name ascending, refuting the claim's sorting clause on
this collection. -/
theorem favorites_members_not_sorted :
    lookupGroup (groupedChannels [favTitledB, favTitledA] ∅ "") "Favorites" =
        some [favTitledB, favTitledA] ∧
      sortedGroupTitles [favTitledB, favTitledA] ∅ "" = ["Favorites"] ∧
      favoritedChannels [favTitledB, favTitledA] ∅ = [] ∧
      ¬ nameCmpLE favTitledB favTitledA := by
  refine ⟨by decide, by decide, by decide, ?_⟩
  unfold nameCmpLE
  show ¬ ("b" : String) ≤ "a"
  rw [String.le_iff_toList_le]
  decide

/-- Claim C2 (amended): the rendered group titles are sorted by the group
comparator with no title repeated, and `Favorites`, when present, is first;
when at least one entity is flagged favorite, the `Favorites` entry holds the
flagged entities of the unfiltered collection sorted by name ascending;
otherwise it is the fetched group literally titled `Favorites` (if any) with
members in merged source order; within every other group, members appear in
the order they occur in the merged, search-filtered sequence. -/
theorem render_group_order (channels : List Channel) (favs : Finset String)
    (searchRaw : String) :
    List.Sorted groupCmpLE (sortedGroupTitles channels favs searchRaw) ∧
      (sortedGroupTitles channels favs searchRaw).Nodup ∧
      ("Favorites" ∈ sortedGroupTitles channels favs searchRaw →
        (sortedGroupTitles channels favs searchRaw).head? = some "Favorites") ∧
      List.Sorted nameCmpLE
        (List.insertionSort nameCmpLE (favoritedChannels channels favs)) ∧
      lookupGroup (groupedChannels channels favs searchRaw) "Favorites" =
        (if (favoritedChannels channels favs).isEmpty then
          (if ((searchFiltered channels searchRaw).filter
              (fun c => groupKeyOf c == "Favorites")).isEmpty then none
           else some ((searchFiltered channels searchRaw).filter
              (fun c => groupKeyOf c == "Favorites")))
         else
          some (List.insertionSort nameCmpLE (favoritedChannels channels favs))) ∧
      (∀ k, k ≠ "Favorites" →
        lookupGroup (groupedChannels channels favs searchRaw) k =
          (if ((searchFiltered channels searchRaw).filter
              (fun c => groupKeyOf c == k)).isEmpty then none
           else some ((searchFiltered channels searchRaw).filter
              (fun c => groupKeyOf c == k)))) := by
  refine ⟨sortedGroupTitles_sorted _ _ _, sortedGroupTitles_nodup _ _ _,
    fun hmem => sorted_favorites_head _ (sortedGroupTitles_sorted _ _ _) hmem,
    List.sorted_insertionSort nameCmpLE _, ?_, ?_⟩
  · rw [groupedChannels]
    by_cases hE : (favoritedChannels channels favs).isEmpty
    · simp only [hE, if_true]
      exact lookupGroup_groupChannels _ _
    · simp only [hE, Bool.false_eq_true, if_false, lookupGroup_setGroup, if_pos]
  · intro k hk
    rw [groupedChannels]
    by_cases hE : (favoritedChannels channels favs).isEmpty
    · simp only [hE, if_true]
      exact lookupGroup_groupChannels _ _
    · simp only [hE, Bool.false_eq_true, if_false, lookupGroup_setGroup,
        if_neg hk]
      exact lookupGroup_groupChannels _ _

/-! ### Sample channels (the spec's three-entity scenario, plus one more
source) -/

/-- Entity `a` of the spec's scenario: `CNN` in `News`, source 1. -/
def chCNN : Channel :=
  { id := "a", streamId := none, name := "CNN", tvgId := none, tvgLogo := none,
    groupId := "m3u_1_group_0", groupTitle := "News", sourceId := 1,
    sourceType := "m3u", url := some "http://x/a" }

/-- Entity `b` of the spec's scenario: `BBC` in `News`, source 1. -/
def chBBC : Channel :=
  { id := "b", streamId := none, name := "BBC", tvgId := none, tvgLogo := none,
    groupId := "m3u_1_group_0", groupTitle := "News", sourceId := 1,
    sourceType := "m3u", url := some "http://x/b" }

/-- Entity `c` of the spec's scenario: `ESPN` in `Sports`, source 1. -/
def chESPN : Channel :=
  { id := "c", streamId := none, name := "ESPN", tvgId := none, tvgLogo := none,
    groupId := "m3u_1_group_1", groupTitle := "Sports", sourceId := 1,
    sourceType := "m3u", url := some "http://x/c" }

/-- A `News` channel of a second source (source 2). -/
def chSky : Channel :=
  { id := "d", streamId := none, name := "Sky", tvgId := none, tvgLogo := none,
    groupId := "m3u_2_group_0", groupTitle := "News", sourceId := 2,
    sourceType := "m3u", url := some "http://y/d" }

/-- A favorite-flag cache holding exactly entity `a` of source 1. -/
def favSetA : Finset String := {favKey 1 "a"}

/-- A hidden cache flagging the group `News` of source 2. -/
def hiddenNewsSrc2 : Finset String := {hiddenKey "group" 2 "News"}

/-- A hidden cache flagging channel `b` of source 1. -/
def hiddenChanB : Finset String := {hiddenKey "channel" 1 "b"}

/-! ### Renderer lemmas -/

theorem renderBatches_eq_take (m : List (String × List Channel))
    (hiddenItems : Finset String) (showHidden : Bool) (sorted : List String) :
    ∀ n, renderBatches m hiddenItems showHidden sorted n =
      (sorted.take (n * batchSize)).filterMap
        (renderGroupByName m hiddenItems showHidden) := by
  intro n
  induction n with
  | zero => simp [renderBatches]
  | succ n ih =>
    rw [renderBatches, List.range_succ, List.flatMap_append, ← renderBatches, ih]
    have hsingle : List.flatMap [n] (renderBatch m hiddenItems showHidden sorted) =
        renderBatch m hiddenItems showHidden sorted n := by
      simp [List.flatMap]
    rw [hsingle, renderBatch, Nat.succ_mul, List.take_add,
      List.filterMap_append]

theorem renderGroupCore_cons (hiddenItems : Finset String) (showHidden : Bool)
    (groupName : String) (c0 : Channel) (rest : List Channel) :
    renderGroupCore hiddenItems showHidden groupName (c0 :: rest) =
      if (!(groupName == "Favorites") &&
            isHiddenIn hiddenItems "group" c0.sourceId groupName) &&
          !showHidden then none
      else some
        { title := groupName
          count := (c0 :: rest).length
          rows := (c0 :: rest).filter (fun ch =>
            !((!(groupName == "Favorites") &&
                isHiddenIn hiddenItems "channel" ch.sourceId ch.id) &&
              !showHidden)) } := rfl

theorem renderGroupCore_title (hiddenItems : Finset String) (showHidden : Bool)
    (groupName : String) (channels : List Channel) (rg : RenderedGroup)
    (h : renderGroupCore hiddenItems showHidden groupName channels = some rg) :
    rg.title = groupName := by
  cases channels with
  | nil => simp [renderGroupCore] at h
  | cons c0 rest =>
    rw [renderGroupCore_cons] at h
    split at h
    · cases h
    · cases h
      rfl

theorem renderGroupByName_title (m : List (String × List Channel))
    (hiddenItems : Finset String) (showHidden : Bool) (groupName : String)
    (rg : RenderedGroup)
    (h : renderGroupByName m hiddenItems showHidden groupName = some rg) :
    rg.title = groupName := by
  rw [renderGroupByName] at h
  cases hl : lookupGroup m groupName with
  | none => rw [hl] at h; cases h
  | some channels =>
    rw [hl] at h
    exact renderGroupCore_title hiddenItems showHidden groupName channels rg h

theorem fullRender_titles_sublist (m : List (String × List Channel))
    (hiddenItems : Finset String) (showHidden : Bool) :
    ∀ sorted : List String,
      ((fullRender m hiddenItems showHidden sorted).map
        RenderedGroup.title).Sublist sorted := by
  intro sorted
  induction sorted with
  | nil => simp [fullRender]
  | cons a t ih =>
    rw [fullRender, List.filterMap_cons]
    cases h : renderGroupByName m hiddenItems showHidden a with
    | none => exact ih.cons a
    | some rg =>
      rw [List.map_cons,
        renderGroupByName_title m hiddenItems showHidden a rg h]
      exact ih.cons₂ a

/-! ### Claim C6 -/

/-- Claim C6, counterexample: entity `a` (`CNN`, group `News`) is flagged
favorite; with no hidden flags and show-hidden off it is not suppressed, yet
firing the renderer to completion emits it twice — once in `Favorites` and
once in `News` — refuting "every entity ... is rendered exactly once". -/
theorem favorite_rendered_twice :
    getVisibleChannels [chCNN] ∅ false = [chCNN] ∧
      List.count chCNN
        (renderedRows (fullRender (groupedChannels [chCNN] favSetA "") ∅ false
          (sortedGroupTitles [chCNN] favSetA ""))) = 2 := by
  constructor
  · decide
  · decide

/-- Claim C6 (amended): once enough batches have fired (`n * batchSize` at
least the number of sorted groups, after which the loader is retired), the
accumulated batch output equals the full render; the sorted title list has no
duplicates, and the emitted groups' titles form a subsequence of it — so every
group is emitted at most once, in sorted order, and none is skipped by the
batching protocol. Every entity not suppressed by the hidden rules is thus
rendered exactly once in each emitted group that lists it; an entity flagged
favorite is additionally listed in `Favorites`, so it can be rendered twice. -/
theorem windowed_render_complete (channels : List Channel)
    (favs : Finset String) (searchRaw : String) (hiddenItems : Finset String)
    (showHidden : Bool) (n : Nat)
    (h : (sortedGroupTitles channels favs searchRaw).length ≤ n * batchSize) :
    renderBatches (groupedChannels channels favs searchRaw) hiddenItems
        showHidden (sortedGroupTitles channels favs searchRaw) n =
      fullRender (groupedChannels channels favs searchRaw) hiddenItems
        showHidden (sortedGroupTitles channels favs searchRaw) ∧
      (sortedGroupTitles channels favs searchRaw).Nodup ∧
      ((fullRender (groupedChannels channels favs searchRaw) hiddenItems
          showHidden (sortedGroupTitles channels favs searchRaw)).map
        RenderedGroup.title).Sublist
        (sortedGroupTitles channels favs searchRaw) := by
  refine ⟨?_, sortedGroupTitles_nodup channels favs searchRaw,
    fullRender_titles_sublist _ _ _ _⟩
  rw [renderBatches_eq_take, List.take_of_length_le h, fullRender]

/-- Claim C6, witness: one channel, one favorite flag, a single batch
suffices. -/
theorem windowed_render_complete_witness :
    renderBatches (groupedChannels [chCNN] favSetA "") ∅ false
        (sortedGroupTitles [chCNN] favSetA "") 1 =
      fullRender (groupedChannels [chCNN] favSetA "") ∅ false
        (sortedGroupTitles [chCNN] favSetA "") ∧
      (sortedGroupTitles [chCNN] favSetA "").Nodup ∧
      ((fullRender (groupedChannels [chCNN] favSetA "") ∅ false
          (sortedGroupTitles [chCNN] favSetA "")).map
        RenderedGroup.title).Sublist (sortedGroupTitles [chCNN] favSetA "") :=
  windowed_render_complete [chCNN] favSetA "" ∅ false 1 (by decide)

/-! ### Claim C4 -/

/-- Claim C4, counterexample: the group-hidden check of `renderNextBatch` uses
only the source of the group's first member.  `Sky` (source 2) sits in the
merged group `News` whose first member is from source 1; the hidden flag
`(2, group, News)` is set, show-hidden is off, `Sky` is not favorite — yet
`Sky` is rendered. -/
theorem hidden_group_other_source_rendered :
    isHiddenIn hiddenNewsSrc2 "group" chSky.sourceId chSky.groupTitle = true ∧
      isFavoriteIn ∅ chSky.sourceId chSky.id = false ∧
      chSky ∈ renderedRows (fullRender (groupedChannels [chCNN, chSky] ∅ "")
        hiddenNewsSrc2 false (sortedGroupTitles [chCNN, chSky] ∅ "")) := by
  refine ⟨by decide, by decide, by decide⟩

/-- Claim C4 (amended): with show-hidden off, a rendered non-`Favorites` group
contains no individually hidden member, and a non-`Favorites` group whose
title is flagged hidden for the source of its *first* member is dropped
entirely (for the other members' sources the group flag is not consulted);
the `Favorites` group is never subject to either hidden filter; with
show-hidden on, every non-empty group is emitted with all its members, the
flag caches being read-only inputs of the pure rendering function. -/
theorem hidden_suppression (hiddenItems : Finset String) (groupName : String)
    (channels : List Channel) :
    (∀ rg ch, groupName ≠ "Favorites" →
      renderGroupCore hiddenItems false groupName channels = some rg →
      ch ∈ rg.rows → isHiddenIn hiddenItems "channel" ch.sourceId ch.id = false) ∧
      (∀ c0 rest, groupName ≠ "Favorites" → channels = c0 :: rest →
        isHiddenIn hiddenItems "group" c0.sourceId groupName = true →
        renderGroupCore hiddenItems false groupName channels = none) ∧
      (channels ≠ [] → ∀ showHidden,
        renderGroupCore hiddenItems showHidden "Favorites" channels =
          some ⟨"Favorites", channels.length, channels⟩) ∧
      (channels ≠ [] →
        renderGroupCore hiddenItems true groupName channels =
          some ⟨groupName, channels.length, channels⟩) := by
  refine ⟨?_, ?_, ?_, ?_⟩
  · intro rg ch hn hsome hmem
    cases channels with
    | nil => simp [renderGroupCore] at hsome
    | cons c0 rest =>
      have hb : (groupName == "Favorites") = false := beq_eq_false_iff_ne.mpr hn
      rw [renderGroupCore_cons, hb] at hsome
      simp only [Bool.not_false, Bool.true_and, Bool.and_true] at hsome
      split at hsome
      · cases hsome
      · cases hsome
        rw [List.mem_filter] at hmem
        have hp := hmem.2
        simp only [Bool.not_false, Bool.true_and, Bool.and_true,
          Bool.not_eq_true', Bool.and_eq_false_iff] at hp
        simpa using hp
  · intro c0 rest hn hceq hhid
    subst hceq
    have hb : (groupName == "Favorites") = false := beq_eq_false_iff_ne.mpr hn
    rw [renderGroupCore_cons, hb, hhid]
    simp
  · intro hne showHidden
    cases channels with
    | nil => exact absurd rfl hne
    | cons c0 rest =>
      rw [renderGroupCore_cons]
      simp
  · intro hne
    cases channels with
    | nil => exact absurd rfl hne
    | cons c0 rest =>
      rw [renderGroupCore_cons]
      simp

/-! ### Claim C7 -/

/-- Claim C7, counterexample: channel `b` of the `News` group is individually
hidden and show-hidden is off; the group renders a single row, yet the header
count shown is the full member count `2`. -/
theorem header_count_includes_hidden :
    renderGroupCore hiddenChanB false "News" [chCNN, chBBC] =
        some ⟨"News", 2, [chCNN]⟩ ∧
      (2 : Nat) ≠ ([chCNN] : List Channel).length := by
  refine ⟨by decide, by decide⟩

/-- Claim C7 (amended): the count shown in a rendered group's header is the
group's total member count (after search filtering, before the hidden
filter), so it can exceed the number of rendered rows when members are
individually hidden with show-hidden off; with show-hidden on the rows are
the full member list and the two numbers agree. -/
theorem group_count_total (hiddenItems : Finset String) (showHidden : Bool)
    (groupName : String) (channels : List Channel) (rg : RenderedGroup)
    (h : renderGroupCore hiddenItems showHidden groupName channels = some rg) :
    rg.count = channels.length ∧ rg.rows.length ≤ rg.count ∧
      (showHidden = true → rg.rows = channels) := by
  cases channels with
  | nil => simp [renderGroupCore] at h
  | cons c0 rest =>
    rw [renderGroupCore_cons] at h
    split at h
    · cases h
    · cases h
      refine ⟨rfl, List.length_filter_le _ _, ?_⟩
      intro hsh
      subst hsh
      simp

/-- Claim C7, witness: the counterexample group instantiates the amended
claim. -/
theorem group_count_total_witness :
    (⟨"News", 2, [chCNN]⟩ : RenderedGroup).count =
        ([chCNN, chBBC] : List Channel).length ∧
      (⟨"News", 2, [chCNN]⟩ : RenderedGroup).rows.length ≤
        (⟨"News", 2, [chCNN]⟩ : RenderedGroup).count ∧
      (false = true →
        (⟨"News", 2, [chCNN]⟩ : RenderedGroup).rows = [chCNN, chBBC]) :=
  group_count_total hiddenChanB false "News" [chCNN, chBBC]
    ⟨"News", 2, [chCNN]⟩ (by decide)

/-! ### Claim C5 -/

/-- Claim C5: when at least one entity is flagged favorite, the `Favorites`
entry of the grouped output is the favorite-flagged subset of the full,
unfiltered collection (sorted by name), independent of the active search
term; its membership is exactly the favorite-flagged entities. -/
theorem favorites_ignore_search (channels : List Channel) (favs : Finset String)
    (searchRaw : String)
    (h : (favoritedChannels channels favs).isEmpty = false) :
    lookupGroup (groupedChannels channels favs searchRaw) "Favorites" =
        some (List.insertionSort nameCmpLE (favoritedChannels channels favs)) ∧
      lookupGroup (groupedChannels channels favs searchRaw) "Favorites" =
        lookupGroup (groupedChannels channels favs "") "Favorites" ∧
      ∀ c, c ∈ List.insertionSort nameCmpLE (favoritedChannels channels favs) ↔
        c ∈ channels ∧ isFavoriteIn favs c.sourceId c.id = true := by
  have hmain : ∀ s, lookupGroup (groupedChannels channels favs s) "Favorites" =
      some (List.insertionSort nameCmpLE (favoritedChannels channels favs)) := by
    intro s
    rw [groupedChannels]
    simp only [h, Bool.false_eq_true, if_false, lookupGroup_setGroup, if_pos]
  refine ⟨hmain searchRaw, (hmain searchRaw).trans (hmain "").symm, ?_⟩
  intro c
  rw [(List.perm_insertionSort nameCmpLE _).mem_iff, favoritedChannels,
    List.mem_filter]

/-- Claim C5, witness: the scenario collection with `a` favorited and the
search term `"esp"`. -/
theorem favorites_ignore_search_witness :
    lookupGroup (groupedChannels [chCNN] favSetA "esp") "Favorites" =
      some (List.insertionSort nameCmpLE (favoritedChannels [chCNN] favSetA)) :=
  (favorites_ignore_search [chCNN] favSetA "esp" (by decide)).1

/-! ### Optimistic mutation controller: `ChannelList.toggleFavorite`,
`ChannelList.selectChannel` -/

/-- The visual favorite affordance of one rendered channel row
(`.favorite-btn`): active class, icon glyph, tooltip title. -/
structure Btn where
  active : Bool
  icon : String
  title : String
deriving DecidableEq, Repr

/-- The slice of `ChannelList` state touched by selection and favorite
toggling: the collection, the cached favorite-key set, the in-memory
`Favorites` group array (`groupedChannels['Favorites']`, absent until
created), the rendered favorite buttons keyed by
`` `${sourceId}:${channelId}` ``, and the current selection. -/
structure CLState where
  channels : List Channel
  visibleFavorites : Finset String
  favGroup : Option (List Channel)
  btns : List (String × Btn)
  currentChannel : Option Channel
deriving DecidableEq

/-- Optimistic-phase patch of every rendered button of one channel: class,
icon and tooltip title are all set. -/
def patchBtns (btns : List (String × Btn)) (key : String) (b : Btn) :
    List (String × Btn) :=
  btns.map (fun e => if e.1 == key then (e.1, b) else e)

/-- Rollback-phase patch: the error handler resets `classList` and
`innerHTML` but never writes `title`, so the tooltip keeps the optimistic
value. -/
def patchBtnsKeepTitle (btns : List (String × Btn)) (key : String)
    (active : Bool) (icon : String) : List (String × Btn) :=
  btns.map (fun e =>
    if e.1 == key then (e.1, { e.2 with active := active, icon := icon })
    else e)

/-- Button state written when a channel becomes favorite. -/
def favBtn : Btn :=
  { active := true, icon := "❤️", title := "Remove from Favorites" }

/-- Button state written when a channel stops being favorite. -/
def unfavBtn : Btn :=
  { active := false, icon := "♡", title := "Add to Favorites" }

/-- The data half of `updateFavoritesGroup`: the member array is created when
the key is absent; on add the channel is pushed unless an entry with its
`(id, sourceId)` already exists; on remove the first such entry is spliced
out. -/
def updateFavoritesGroupData (favGroup : Option (List Channel)) (ch : Channel)
    (isAdded : Bool) : List Channel :=
  let arr := favGroup.getD []
  match arr.findIdx? (fun c => c.id == ch.id && c.sourceId == ch.sourceId) with
  | none => if isAdded then arr ++ [ch] else arr
  | some i => if isAdded then arr else arr.eraseIdx i

/-- The remote flag-store call issued by `toggleFavorite`. -/
inductive RemoteOp where
  | add (sourceId : Nat) (itemId : String)
  | remove (sourceId : Nat) (itemId : String)
deriving DecidableEq, Repr

/-- `ChannelList.toggleFavorite(sourceId, channelId)`: read `wasFavorite`
from the cache, optimistically flip the cached set and every rendered button
of the channel, patch the `Favorites` group when the channel exists in the
collection (no existence guard before this point), then issue the remote
add/remove call — `remoteOk` is its outcome; on failure apply the inverse
patches (the tooltip title is not restored).  Returns the settled state and
the remote call that was issued. -/
def toggleFavorite (st : CLState) (sourceId : Nat) (channelId : String)
    (remoteOk : Bool) : CLState × RemoteOp :=
  let key := favKey sourceId channelId
  let wasFavorite := isFavoriteIn st.visibleFavorites sourceId channelId
  let st1 :=
    if wasFavorite then
      { st with visibleFavorites := st.visibleFavorites.erase key
                btns := patchBtns st.btns key unfavBtn }
    else
      { st with visibleFavorites := insert key st.visibleFavorites
                btns := patchBtns st.btns key favBtn }
  let st2 :=
    match st1.channels.find?
        (fun c => c.sourceId == sourceId && c.id == channelId) with
    | some ch =>
      { st1 with
        favGroup := some (updateFavoritesGroupData st1.favGroup ch !wasFavorite) }
    | none => st1
  let op := if wasFavorite then RemoteOp.remove sourceId channelId
            else RemoteOp.add sourceId channelId
  if remoteOk then (st2, op)
  else
    let st3 :=
      if wasFavorite then
        { st2 with visibleFavorites := insert key st2.visibleFavorites
                   btns := patchBtnsKeepTitle st2.btns key true "❤️" }
      else
        { st2 with visibleFavorites := st2.visibleFavorites.erase key
                   btns := patchBtnsKeepTitle st2.btns key false "♡" }
    let st4 :=
      match st3.channels.find?
          (fun c => c.sourceId == sourceId && c.id == channelId) with
      | some ch =>
        { st3 with
          favGroup := some (updateFavoritesGroupData st3.favGroup ch wasFavorite) }
      | none => st3
    (st4, op)

/-- `ChannelList.selectChannel`: a guarded no-op when the id is absent from
the collection; otherwise the channel becomes current and, for an Xtream
channel, a stream-URL resolution request is issued (the returned flag). -/
def selectChannel (st : CLState) (channelId : String) : CLState × Bool :=
  match st.channels.find? (fun c => c.id == channelId) with
  | none => (st, false)
  | some ch =>
    ({ st with currentChannel := some ch }, ch.sourceType == "xtream")

/-- Does the `Favorites` member array list an entry for this
`(itemId, sourceId)` identity (the identity `updateFavoritesGroup` and the
DOM queries match on)? -/
def hasFavEntryKey (arr : List Channel) (itemId : String) (sourceId : Nat) :
    Bool :=
  arr.any (fun c => c.id == itemId && c.sourceId == sourceId)

/-! ### Toggle lemmas -/

theorem eraseIdx_findIdx? (p : Channel → Bool) :
    ∀ (l : List Channel) (i : Nat), l.findIdx? p = some i →
      l.eraseIdx i = l.eraseP p := by
  intro l
  induction l with
  | nil => intro i h; cases h
  | cons a t ih =>
    intro i h
    rw [List.findIdx?_cons] at h
    by_cases hp : p a
    · rw [if_pos hp] at h
      cases h
      rw [List.eraseIdx_cons_zero, List.eraseP_cons_of_pos hp]
    · rw [if_neg hp, List.findIdx?_succ] at h
      cases hj : t.findIdx? p with
      | none => rw [hj] at h; cases h
      | some j =>
        rw [hj] at h
        cases h
        rw [List.eraseIdx_cons_succ, List.eraseP_cons_of_neg hp, ih j hj]

theorem any_of_findIdx?_eq_some {p : Channel → Bool} {l : List Channel}
    {i : Nat} (h : l.findIdx? p = some i) : l.any p = true := by
  by_contra hc
  rw [Bool.not_eq_true, List.any_eq_false] at hc
  rw [List.findIdx?_eq_none_iff.mpr (fun x hx => by
    simpa using hc x hx)] at h
  cases h

theorem updateFavoritesGroupData_remove (favGroup : Option (List Channel))
    (ch : Channel) :
    updateFavoritesGroupData favGroup ch false =
      (favGroup.getD []).eraseP
        (fun c => c.id == ch.id && c.sourceId == ch.sourceId) := by
  rw [updateFavoritesGroupData]
  cases hidx : (favGroup.getD []).findIdx?
      (fun c => c.id == ch.id && c.sourceId == ch.sourceId) with
  | none =>
    simp only [Bool.false_eq_true, if_false]
    rw [List.eraseP_of_forall_not]
    intro a ha
    have := List.findIdx?_eq_none_iff.mp hidx a ha
    simpa using this
  | some i =>
    simp only [Bool.false_eq_true, if_false]
    exact eraseIdx_findIdx? _ _ i hidx

theorem updateFavoritesGroupData_add (favGroup : Option (List Channel))
    (ch : Channel) :
    updateFavoritesGroupData favGroup ch true =
      if hasFavEntryKey (favGroup.getD []) ch.id ch.sourceId
      then favGroup.getD []
      else favGroup.getD [] ++ [ch] := by
  rw [updateFavoritesGroupData, hasFavEntryKey]
  cases hidx : (favGroup.getD []).findIdx?
      (fun c => c.id == ch.id && c.sourceId == ch.sourceId) with
  | none =>
    have hany : (favGroup.getD []).any
        (fun c => c.id == ch.id && c.sourceId == ch.sourceId) = false := by
      rw [List.any_eq_false]
      intro x hx
      have := List.findIdx?_eq_none_iff.mp hidx x hx
      simpa using this
    simp [hany]
  | some i =>
    have hany := any_of_findIdx?_eq_some hidx
    simp [hany]

theorem any_eraseP_of_countP_le_one (p : Channel → Bool) :
    ∀ l : List Channel, l.countP p ≤ 1 → (l.eraseP p).any p = false := by
  intro l
  induction l with
  | nil => intro h; rfl
  | cons a t ih =>
    intro h
    by_cases hp : p a
    · rw [List.eraseP_cons_of_pos hp]
      rw [List.countP_cons, if_pos hp] at h
      have ht : t.countP p = 0 := by omega
      rw [List.any_eq_false]
      intro x hx
      exact (List.countP_eq_zero.mp ht) x hx
    · rw [List.eraseP_cons_of_neg hp, List.any_cons]
      rw [List.countP_cons, if_neg hp] at h
      simp [hp, ih h]

theorem any_eraseP_of_disjoint (p q : Channel → Bool)
    (hpq : ∀ c, p c = true → q c = false) :
    ∀ l : List Channel, (l.eraseP p).any q = l.any q := by
  intro l
  induction l with
  | nil => rfl
  | cons a t ih =>
    by_cases hp : p a
    · rw [List.eraseP_cons_of_pos hp, List.any_cons, hpq a hp]
      simp
    · rw [List.eraseP_cons_of_neg hp, List.any_cons, List.any_cons, ih]

theorem patch_map_restore (key : String) (b : Btn) (act : Bool)
    (icon : String) :
    ∀ btns : List (String × Btn),
      (∀ e ∈ btns, e.1 = key → e.2.active = act ∧ e.2.icon = icon) →
      (patchBtnsKeepTitle (patchBtns btns key b) key act icon).map
          (fun e => (e.1, e.2.active, e.2.icon)) =
        btns.map (fun e => (e.1, e.2.active, e.2.icon)) := by
  intro btns
  induction btns with
  | nil => intro _; rfl
  | cons e rest ih =>
    intro h
    simp only [patchBtns, patchBtnsKeepTitle, List.map_cons] at ih ⊢
    by_cases he : e.1 = key
    · obtain ⟨ha, hi⟩ := h e (List.mem_cons_self e rest) he
      simp only [he, beq_self_eq_true, if_true]
      rw [ih (fun x hx hk => h x (List.mem_cons_of_mem _ hx) hk)]
      simp [ha, hi]
    · have hb : (e.1 == key) = false := beq_eq_false_iff_ne.mpr he
      simp only [hb, Bool.false_eq_true, if_false]
      rw [ih (fun x hx hk => h x (List.mem_cons_of_mem _ hx) hk)]

theorem toggleFavorite_ok_visibleFavorites (st : CLState) (sourceId : Nat)
    (channelId : String) :
    ((toggleFavorite st sourceId channelId true).1).visibleFavorites =
      if isFavoriteIn st.visibleFavorites sourceId channelId
      then st.visibleFavorites.erase (favKey sourceId channelId)
      else insert (favKey sourceId channelId) st.visibleFavorites := by
  cases hw : isFavoriteIn st.visibleFavorites sourceId channelId <;>
    cases hch : st.channels.find?
        (fun c => c.sourceId == sourceId && c.id == channelId) <;>
      simp [toggleFavorite, hw, hch]

theorem toggleFavorite_fail_eq (st : CLState) (sourceId : Nat)
    (channelId : String) (ch : Channel)
    (hch : st.channels.find?
      (fun c => c.sourceId == sourceId && c.id == channelId) = some ch) :
    (toggleFavorite st sourceId channelId false).1 =
      if isFavoriteIn st.visibleFavorites sourceId channelId then
        { st with
          visibleFavorites := insert (favKey sourceId channelId)
            (st.visibleFavorites.erase (favKey sourceId channelId))
          btns := patchBtnsKeepTitle
            (patchBtns st.btns (favKey sourceId channelId) unfavBtn)
            (favKey sourceId channelId) true "❤️"
          favGroup := some (updateFavoritesGroupData
            (some (updateFavoritesGroupData st.favGroup ch false)) ch true) }
      else
        { st with
          visibleFavorites := (insert (favKey sourceId channelId)
            st.visibleFavorites).erase (favKey sourceId channelId)
          btns := patchBtnsKeepTitle
            (patchBtns st.btns (favKey sourceId channelId) favBtn)
            (favKey sourceId channelId) false "♡"
          favGroup := some (updateFavoritesGroupData
            (some (updateFavoritesGroupData st.favGroup ch true)) ch false) } := by
  cases hw : isFavoriteIn st.visibleFavorites sourceId channelId <;>
    simp [toggleFavorite, hch, hw]

/-! ### Claim C8 -/

/-- Claim C8: two consecutive `toggleFavorite` calls on the same
`(sourceId, channelId)` with both remote calls succeeding return the cached
favorite-membership set to its initial value. -/
theorem toggle_toggle_roundtrip (st : CLState) (sourceId : Nat)
    (channelId : String) (ch : Channel)
    (hch : st.channels.find?
      (fun c => c.sourceId == sourceId && c.id == channelId) = some ch) :
    ((toggleFavorite (toggleFavorite st sourceId channelId true).1
        sourceId channelId true).1).visibleFavorites =
      st.visibleFavorites := by
  rw [toggleFavorite_ok_visibleFavorites, toggleFavorite_ok_visibleFavorites]
  cases hw : isFavoriteIn st.visibleFavorites sourceId channelId
  · have hmem : favKey sourceId channelId ∉ st.visibleFavorites := by
      simpa [isFavoriteIn] using hw
    simp [hw, isFavoriteIn, Finset.erase_insert hmem]
  · have hmem : favKey sourceId channelId ∈ st.visibleFavorites := by
      simpa [isFavoriteIn] using hw
    simp [hw, isFavoriteIn, Finset.insert_erase hmem, Finset.not_mem_erase]

/-- A one-channel state with nothing favorited. -/
def toggleDemoState : CLState :=
  { channels := [chCNN], visibleFavorites := ∅, favGroup := none,
    btns := [], currentChannel := none }

/-- Claim C8, witness: the double toggle on the demo state. -/
theorem toggle_toggle_roundtrip_witness :
    ((toggleFavorite (toggleFavorite toggleDemoState 1 "a" true).1
        1 "a" true).1).visibleFavorites = toggleDemoState.visibleFavorites :=
  toggle_toggle_roundtrip toggleDemoState 1 "a" chCNN (by decide)

/-! ### Claim C3 -/

/-- A state with `BBC` and `CNN` both favorited, the Favorites array sorted
name-ascending, and the `BBC` button rendered in the favorite state. -/
def rollbackState : CLState :=
  { channels := [chBBC, chCNN],
    visibleFavorites := {favKey 1 "a", favKey 1 "b"},
    favGroup := some [chBBC, chCNN],
    btns := [(favKey 1 "b", favBtn)],
    currentChannel := none }

/-- Claim C3, counterexample: unfavoriting `BBC` with a failing remote call
rolls the cached set back, but (1) the button tooltip keeps the optimistic
`"Add to Favorites"` text instead of the pre-toggle `"Remove from
Favorites"`, and (2) `BBC` is re-inserted at the end of the Favorites array,
so the member list is `[CNN, BBC]` instead of the pre-toggle `[BBC, CNN]` —
the state after rollback does not equal the state before the toggle. -/
theorem rollback_not_exact :
    ((toggleFavorite rollbackState 1 "b" false).1).visibleFavorites =
        rollbackState.visibleFavorites ∧
      ((toggleFavorite rollbackState 1 "b" false).1).favGroup =
        some [chCNN, chBBC] ∧
      rollbackState.favGroup = some [chBBC, chCNN] ∧
      ((toggleFavorite rollbackState 1 "b" false).1).btns =
        [(favKey 1 "b",
          { active := true, icon := "❤️", title := "Add to Favorites" })] ∧
      rollbackState.btns = [(favKey 1 "b", favBtn)] ∧
      ((toggleFavorite rollbackState 1 "b" false).1).favGroup ≠
        rollbackState.favGroup ∧
      ((toggleFavorite rollbackState 1 "b" false).1).btns ≠
        rollbackState.btns := by
  refine ⟨by decide, by decide, by decide, by decide, by decide, by decide,
    by decide⟩

/-- Claim C3 (amended): when the toggled entity exists in the collection, the
Favorites array and cached set agree on it beforehand, its `(id, sourceId)`
identity occurs at most once in the array, and its rendered buttons reflect
the cached state, then after a failed remote call the rollback restores the
cached favorite set exactly, restores the `(id, sourceId)` membership of the
in-memory Favorites array for every identity (though possibly reordered, the
re-inserted entity moving to the end), and restores the active class and icon
of every rendered button — but not the tooltip title, which keeps the
optimistic text; the collection and selection are untouched. -/
theorem rollback_restores (st : CLState) (sourceId : Nat) (channelId : String)
    (ch : Channel)
    (hch : st.channels.find?
      (fun c => c.sourceId == sourceId && c.id == channelId) = some ch)
    (huniq : (st.favGroup.getD []).countP
      (fun c => c.id == ch.id && c.sourceId == ch.sourceId) ≤ 1)
    (hcoh : isFavoriteIn st.visibleFavorites sourceId channelId =
      hasFavEntryKey (st.favGroup.getD []) ch.id ch.sourceId)
    (hbtn : ∀ e ∈ st.btns, e.1 = favKey sourceId channelId →
      e.2.active = isFavoriteIn st.visibleFavorites sourceId channelId ∧
      e.2.icon = (if isFavoriteIn st.visibleFavorites sourceId channelId
        then "❤️" else "♡")) :
    ((toggleFavorite st sourceId channelId false).1).visibleFavorites =
        st.visibleFavorites ∧
      (∀ itemId sid,
        hasFavEntryKey
            (((toggleFavorite st sourceId channelId false).1).favGroup.getD [])
            itemId sid =
          hasFavEntryKey (st.favGroup.getD []) itemId sid) ∧
      ((toggleFavorite st sourceId channelId false).1).btns.map
          (fun e => (e.1, e.2.active, e.2.icon)) =
        st.btns.map (fun e => (e.1, e.2.active, e.2.icon)) ∧
      ((toggleFavorite st sourceId channelId false).1).channels =
        st.channels ∧
      ((toggleFavorite st sourceId channelId false).1).currentChannel =
        st.currentChannel := by
  rw [toggleFavorite_fail_eq st sourceId channelId ch hch]
  cases hw : isFavoriteIn st.visibleFavorites sourceId channelId
  · have hmem : favKey sourceId channelId ∉ st.visibleFavorites := by
      simpa [isFavoriteIn] using hw
    have hanyf : hasFavEntryKey (st.favGroup.getD []) ch.id ch.sourceId =
        false := by rw [← hcoh, hw]
    have hanyf2 : (st.favGroup.getD []).any
        (fun c => c.id == ch.id && c.sourceId == ch.sourceId) = false := hanyf
    simp only [Bool.false_eq_true, if_false]
    refine ⟨Finset.erase_insert hmem, ?_, ?_, trivial, trivial⟩
    · intro itemId sid
      rw [updateFavoritesGroupData_add, hanyf]
      simp only [Bool.false_eq_true, if_false]
      rw [updateFavoritesGroupData_remove]
      simp only [Option.getD_some]
      rw [List.eraseP_append_right _
        (fun b hb => List.any_eq_false.mp hanyf2 b hb)]
      rw [List.eraseP_cons_of_pos (by simp)]
      simp
    · exact patch_map_restore _ _ _ _ st.btns (fun e he hk => by
        obtain ⟨ha, hi⟩ := hbtn e he hk
        rw [hw] at ha hi
        exact ⟨ha, by simpa using hi⟩)
  · have hmem : favKey sourceId channelId ∈ st.visibleFavorites := by
      simpa [isFavoriteIn] using hw
    have hany : hasFavEntryKey (st.favGroup.getD []) ch.id ch.sourceId =
        true := by rw [← hcoh, hw]
    simp only [if_true]
    refine ⟨Finset.insert_erase hmem, ?_, ?_, trivial, trivial⟩
    · intro itemId sid
      rw [updateFavoritesGroupData_remove]
      simp only [Option.getD_some]
      rw [updateFavoritesGroupData_add]
      simp only [Option.getD_some]
      have herased : hasFavEntryKey
          ((st.favGroup.getD []).eraseP
            (fun c => c.id == ch.id && c.sourceId == ch.sourceId))
          ch.id ch.sourceId = false :=
        any_eraseP_of_countP_le_one _ _ huniq
      rw [herased]
      simp only [Bool.false_eq_true, if_false]
      rw [hasFavEntryKey, hasFavEntryKey, List.any_append]
      by_cases hq : (ch.id == itemId && ch.sourceId == sid) = true
      · obtain ⟨h1, h2⟩ := Bool.and_eq_true_iff.mp hq
        rw [beq_iff_eq] at h1 h2
        subst h1
        subst h2
        have harr : (st.favGroup.getD []).any
            (fun c => c.id == ch.id && c.sourceId == ch.sourceId) = true := by
          simpa [hasFavEntryKey] using hany
        simp [harr]
      · have hqf : (ch.id == itemId && ch.sourceId == sid) = false :=
          Bool.not_eq_true _ ▸ hq
        rw [any_eraseP_of_disjoint
          (fun c => c.id == ch.id && c.sourceId == ch.sourceId)
          (fun c => c.id == itemId && c.sourceId == sid) (fun c hpc => by
            obtain ⟨h1, h2⟩ := Bool.and_eq_true_iff.mp hpc
            rw [beq_iff_eq] at h1 h2
            show (c.id == itemId && c.sourceId == sid) = false
            rw [h1, h2]
            exact hqf)]
        simp [hqf]
    · exact patch_map_restore _ _ _ _ st.btns (fun e he hk => by
        obtain ⟨ha, hi⟩ := hbtn e he hk
        rw [hw] at ha hi
        exact ⟨ha, by simpa using hi⟩)

/-- Claim C3, witness: the rollback state of the counterexample satisfies the
amended claim's hypotheses. -/
theorem rollback_restores_witness :
    ((toggleFavorite rollbackState 1 "b" false).1).visibleFavorites =
      rollbackState.visibleFavorites :=
  (rollback_restores rollbackState 1 "b" chBBC (by decide) (by decide)
    (by decide) (by decide)).1

/-! ### Claim C9 -/

/-- The empty channel-list state. -/
def emptyCLState : CLState :=
  { channels := [], visibleFavorites := ∅, favGroup := none,
    btns := [], currentChannel := none }

/-- Claim C9, counterexample: toggling a favorite on an id absent from the
collection is not a guarded no-op — the cached favorite set gains the key and
the remote add call is still issued (selection, by contrast, is guarded). -/
theorem toggle_absent_not_guarded :
    ((toggleFavorite emptyCLState 1 "zz" true).1).visibleFavorites =
        {favKey 1 "zz"} ∧
      (toggleFavorite emptyCLState 1 "zz" true).2 = RemoteOp.add 1 "zz" ∧
      emptyCLState.visibleFavorites = ∅ ∧
      selectChannel emptyCLState "zz" = (emptyCLState, false) := by
  refine ⟨by decide, by decide, by decide, by decide⟩

/-- Claim C9 (amended): selection against an absent id is a guarded no-op —
state unchanged, no stream-resolution call; toggling a favorite against an
absent id skips only the Favorites-group patch (the sole existence-guarded
step): it still flips the cached membership key and always issues the remote
add/remove call chosen by the cached state.  Neither path raises an error to
the user. -/
theorem absent_id_guards (st : CLState) (sourceId : Nat) (channelId : String)
    (remoteOk : Bool)
    (hsel : st.channels.find? (fun c => c.id == channelId) = none)
    (htog : st.channels.find?
      (fun c => c.sourceId == sourceId && c.id == channelId) = none) :
    selectChannel st channelId = (st, false) ∧
      ((toggleFavorite st sourceId channelId remoteOk).1).favGroup =
        st.favGroup ∧
      (toggleFavorite st sourceId channelId remoteOk).2 =
        (if isFavoriteIn st.visibleFavorites sourceId channelId
         then RemoteOp.remove sourceId channelId
         else RemoteOp.add sourceId channelId) ∧
      (remoteOk = true →
        ((toggleFavorite st sourceId channelId remoteOk).1).visibleFavorites =
          (if isFavoriteIn st.visibleFavorites sourceId channelId
           then st.visibleFavorites.erase (favKey sourceId channelId)
           else insert (favKey sourceId channelId) st.visibleFavorites)) := by
  refine ⟨by simp [selectChannel, hsel], ?_, ?_, ?_⟩
  · cases hw : isFavoriteIn st.visibleFavorites sourceId channelId <;>
      cases remoteOk <;> simp [toggleFavorite, htog, hw]
  · cases hw : isFavoriteIn st.visibleFavorites sourceId channelId <;>
      cases remoteOk <;> simp [toggleFavorite, htog, hw]
  · intro hk
    subst hk
    cases hw : isFavoriteIn st.visibleFavorites sourceId channelId <;>
      simp [toggleFavorite, htog, hw]

/-- Claim C9, witness: the empty collection instantiates the amended claim. -/
theorem absent_id_guards_witness :
    selectChannel emptyCLState "zz" = (emptyCLState, false) :=
  (absent_id_guards emptyCLState 1 "zz" true (by decide) (by decide)).1

/-! ### Claim C10 -/

/-- Claim C10: `sources.delete(id)` removes exactly the source records with the
deleted id and exactly the hidden-item records whose `source_id` matches it,
while the favorites list is left unchanged. -/
theorem sources_delete_frame (db : Db) (id : Nat) :
    (sourcesDelete db id).favorites = db.favorites ∧
      (∀ s : DbSource, s ∈ (sourcesDelete db id).sources ↔
        s ∈ db.sources ∧ s.id ≠ id) ∧
      (∀ rec : HiddenRecord, rec ∈ (sourcesDelete db id).hiddenItems ↔
        rec ∈ db.hiddenItems ∧ rec.source_id ≠ id) := by
  refine ⟨rfl, ?_, ?_⟩
  · intro s
    simp [sourcesDelete, List.mem_filter]
  · intro rec
    simp [sourcesDelete, List.mem_filter]

end NodecastTV
